import Mathlib

/-!
# Verification of the object-construction / CSS-selector-builder tasks

Shallow embedding of src/06-objects-tasks.js.

The JS `Selector` class holds a mutable string `selector` and a record
`present` of boolean flags, one per fragment kind.  Each builder method
first performs its checks (throwing one of two module-level error values)
and only then mutates the state, so we embed every fragment-appending
method as a pure function taking the pre-call state and returning the
pair of the thrown error (if any) and the post-call state of the selector
object; on success the post-call state is also the method's return value,
and on a throw the JS object survives with exactly the returned state.
A call on the facade object (not an existing chain) runs on a freshly
constructed empty `Selector`, which we model by applying the function to
`Selector.empty`.
-/

/-- The `present` record of flags, one per fragment kind.  A fresh
`Selector` starts with the empty record, i.e. every flag unset. -/
structure Present where
  element : Bool
  id : Bool
  «class» : Bool
  attr : Bool
  pseudoClass : Bool
  pseudoElement : Bool
deriving DecidableEq, Repr

/-- The empty `present` record of a freshly constructed `Selector`. -/
def Present.empty : Present :=
  ⟨false, false, false, false, false, false⟩

/-- State of a `Selector` object: accumulated text plus the flags. -/
structure Selector where
  selector : String
  present : Present
deriving DecidableEq, Repr

/-- `new Selector(text)`: `this.selector = text || ''` (on strings the
`|| ''` is the identity, and the no-argument form is `Selector.empty`),
`this.present` is the empty record. -/
def Selector.new (text : String) : Selector :=
  ⟨text, Present.empty⟩

/-- `new Selector()`: the state a facade call starts from. -/
def Selector.empty : Selector :=
  Selector.new ""

/-- `stringify()` returns the accumulated text. -/
def Selector.stringify (s : Selector) : String :=
  s.selector

/-- `toString()` returns the accumulated text (used by `element`'s check
and by the template literal inside `combine`). -/
def Selector.toStr (s : Selector) : String :=
  s.selector

/-- A thrown error value, identified by its message, mirroring the two
`Error` objects constructed once at module load. -/
structure SelError where
  message : String
deriving DecidableEq, Repr

/-- `Selector.quantityError`, constructed once at module load. -/
def Selector.quantityError : SelError :=
  ⟨"Element, id and pseudo-element should not occur more then one time inside the selector"⟩

/-- `Selector.orderError`, constructed once at module load. -/
def Selector.orderError : SelError :=
  ⟨"Selector parts should be arranged in the following order: element, id, class, attribute, pseudo-class, pseudo-element"⟩

namespace cssSelectorBuilder

/-- `element(value)`: quantity check on the `element` flag, then order
check `toString() !== ''`, then assigns `selector = value` and sets the
flag. -/
def element (value : String) (s : Selector) : Option SelError × Selector :=
  if s.present.element then (some Selector.quantityError, s)
  else if s.toStr ≠ "" then (some Selector.orderError, s)
  else (none, ⟨value, { s.present with element := true }⟩)

/-- `id(value)`: quantity check on the `id` flag, then order check
`present.pseudoElement || present.class`, then appends `#value`. -/
def id (value : String) (s : Selector) : Option SelError × Selector :=
  if s.present.id then (some Selector.quantityError, s)
  else if s.present.pseudoElement || s.present.«class» then (some Selector.orderError, s)
  else (none, ⟨s.selector ++ "#" ++ value, { s.present with id := true }⟩)

/-- `class(value)`: order check `present.attr`, then appends `.value`.
No quantity check. -/
def «class» (value : String) (s : Selector) : Option SelError × Selector :=
  if s.present.attr then (some Selector.orderError, s)
  else (none, ⟨s.selector ++ "." ++ value, { s.present with «class» := true }⟩)

/-- `attr(value)`: order check `present.pseudoClass`, then appends
`[value]`.  No quantity check. -/
def attr (value : String) (s : Selector) : Option SelError × Selector :=
  if s.present.pseudoClass then (some Selector.orderError, s)
  else (none, ⟨s.selector ++ "[" ++ value ++ "]", { s.present with attr := true }⟩)

/-- `pseudoClass(value)`: order check `present.pseudoElement`, then
appends `:value`.  No quantity check. -/
def pseudoClass (value : String) (s : Selector) : Option SelError × Selector :=
  if s.present.pseudoElement then (some Selector.orderError, s)
  else (none, ⟨s.selector ++ ":" ++ value, { s.present with pseudoClass := true }⟩)

/-- `pseudoElement(value)`: quantity check on the `pseudoElement` flag,
then order check `present.class`, then appends `::value`. -/
def pseudoElement (value : String) (s : Selector) : Option SelError × Selector :=
  if s.present.pseudoElement then (some Selector.quantityError, s)
  else if s.present.«class» then (some Selector.orderError, s)
  else (none, ⟨s.selector ++ "::" ++ value, { s.present with pseudoElement := true }⟩)

/-- `combine(selector1, combinator, selector2)`: builds the template
string from the two `toString()`s and wraps it in a fresh `Selector`
(whose `present` record is empty, and which carries the whole builder
prototype, exactly like any other `Selector`). -/
def combine (s1 : Selector) (combinator : String) (s2 : Selector) : Selector :=
  Selector.new (s1.toStr ++ " " ++ combinator ++ " " ++ s2.toStr)

end cssSelectorBuilder

/-!
## JSON round trip (`getJSON` / `fromJSON`)

`getJSON` is `JSON.stringify`, `fromJSON` is
`Object.setPrototypeOf(JSON.parse(json), proto)`.  We model a JS value
as its list of own data fields (string keys to atomic JSON values,
numbers or escape-free strings) together with a prototype, a prototype
as a list of named behavior methods each computing from the own data
fields, and the platform encoding primitives `JSON.stringify` /
`JSON.parse` concretely on that fragment: `jsonStringify` emits the
object syntax field by field and `jsonParse` reads it back, returning
`none` on input outside the fragment (the underlying decode fault,
propagated unchanged). -/

/-- An atomic JSON value: a number or an escape-free string. -/
inductive JValue where
  | jnum : Int → JValue
  | jstr : String → JValue
deriving DecidableEq, Repr

/-- Encoding of one atomic value, as `JSON.stringify` renders it. -/
def JValue.encode : JValue → String
  | .jnum n => toString n
  | .jstr s => "\"" ++ s ++ "\""

/-- Encoding of the comma-separated own-field list. -/
def encodeFields : List (String × JValue) → String
  | [] => ""
  | [(k, v)] => "\"" ++ k ++ "\":" ++ v.encode
  | (k, v) :: rest => "\"" ++ k ++ "\":" ++ v.encode ++ "," ++ encodeFields rest

/-- `JSON.stringify` on an own-field list: braces around the members. -/
def jsonStringify (fields : List (String × JValue)) : String :=
  "\x7b" ++ encodeFields fields ++ "\x7d"

/-- Splits a leading run of decimal digits. -/
def takeDigits : List Char → List Char × List Char
  | [] => ([], [])
  | c :: cs =>
    if c.isDigit then
      let (ds, rest) := takeDigits cs
      (c :: ds, rest)
    else ([], c :: cs)

/-- Digit-list to number. -/
def digitsToNat (ds : List Char) : Nat :=
  ds.foldl (fun acc c => acc * 10 + (c.toNat - 48)) 0

/-- Reads a JSON number (optional minus, digit run). -/
def readNum (cs : List Char) : Option (JValue × List Char) :=
  match cs with
  | '-' :: rest =>
    let (ds, rest2) := takeDigits rest
    if ds.isEmpty then none else some (.jnum (-(digitsToNat ds : Int)), rest2)
  | _ =>
    let (ds, rest2) := takeDigits cs
    if ds.isEmpty then none else some (.jnum (digitsToNat ds : Int), rest2)

/-- Consumes characters up to the closing quote of a string literal. -/
def takeUntilQuote : List Char → Option (List Char × List Char)
  | [] => none
  | c :: cs =>
    if c = '"' then some ([], cs)
    else (takeUntilQuote cs).map fun p => (c :: p.1, p.2)

/-- Reads a quoted escape-free string literal. -/
def readStr (cs : List Char) : Option (String × List Char) :=
  match cs with
  | '"' :: rest =>
    (takeUntilQuote rest).map fun p => (String.mk p.1, p.2)
  | _ => none

/-- Reads one atomic JSON value. -/
def readValue (cs : List Char) : Option (JValue × List Char) :=
  match cs with
  | '"' :: _ => (readStr cs).map fun p => (.jstr p.1, p.2)
  | _ => readNum cs

/-- Reads one `"key":value` member. -/
def readMember (cs : List Char) : Option ((String × JValue) × List Char) :=
  match readStr cs with
  | some (k, ':' :: rest) =>
    (readValue rest).map fun p => ((k, p.1), p.2)
  | _ => none

/-- Reads a non-empty comma-separated member list (fuel-bounded). -/
def readMembers : Nat → List Char → Option (List (String × JValue) × List Char)
  | 0, _ => none
  | fuel + 1, cs =>
    match readMember cs with
    | some (kv, ',' :: rest) =>
      (readMembers fuel rest).map fun p => (kv :: p.1, p.2)
    | some (kv, rest) => some ([kv], rest)
    | none => none

/-- `JSON.parse` on the modelled fragment: an object of atomic fields.
Returns `none` (the decode fault) outside the fragment. -/
def jsonParse (s : String) : Option (List (String × JValue)) :=
  match s.data with
  | ['\x7b', '\x7d'] => some []
  | '\x7b' :: rest =>
    match readMembers rest.length rest with
    | some (l, ['\x7d']) => some l
    | _ => none
  | _ => none

/-- A prototype: a set of named behavior methods, each computing an
output from the own data fields of the receiver. -/
structure Shape where
  methods : List (String × (List (String × JValue) → JValue))

/-- A JS object: own data fields plus a prototype. -/
structure Obj where
  fields : List (String × JValue)
  proto : Shape

/-- `getJSON(obj)`: `JSON.stringify(obj)` serializes the own data
fields (the prototype does not appear in the encoding). -/
def getJSON (obj : Obj) : String :=
  jsonStringify obj.fields

/-- `fromJSON(proto, json)`:
`Object.setPrototypeOf(JSON.parse(json), proto)` — the parsed own
fields with the supplied prototype attached; a decode fault propagates. -/
def fromJSON (proto : Shape) (json : String) : Option Obj :=
  (jsonParse json).map fun fs => ⟨fs, proto⟩

/-- Method invocation: look the name up on the prototype and apply the
behavior to the receiver's own data fields. -/
def callMethod (o : Obj) (m : String) : Option JValue :=
  (o.proto.methods.lookup m).map fun f => f o.fields

/-!
## Rectangle

`Rectangle(width, height)` returns an object literal with data fields
`width` and `height` and a method `getArea()` whose closure multiplies
the constructor parameters.  JS numbers at the integral inputs the task
exercises behave as integers, modelled by `Int`. -/

/-- The object returned by `Rectangle`. -/
structure RectObj where
  width : Int
  height : Int
  getArea : Unit → Int

/-- `Rectangle(width, height)`. -/
def Rectangle (width height : Int) : RectObj :=
  ⟨width, height, fun _ => width * height⟩

/-!
## Chaining

A fluent chain `builder.f1(v1).f2(v2)...` applies the fragment methods
left to right, a thrown error aborting the chain; `runFrags` is that
combinator over a list of calls. -/

/-- One fragment-appending call of the chain. -/
inductive Frag where
  | element : String → Frag
  | id : String → Frag
  | cls : String → Frag
  | attr : String → Frag
  | pseudoCls : String → Frag
  | pseudoElt : String → Frag
deriving DecidableEq, Repr

/-- Dispatches one call to the corresponding builder method. -/
def applyFrag : Frag → Selector → Option SelError × Selector
  | .element v, s => cssSelectorBuilder.element v s
  | .id v, s => cssSelectorBuilder.id v s
  | .cls v, s => cssSelectorBuilder.«class» v s
  | .attr v, s => cssSelectorBuilder.attr v s
  | .pseudoCls v, s => cssSelectorBuilder.pseudoClass v s
  | .pseudoElt v, s => cssSelectorBuilder.pseudoElement v s

/-- Runs a chain of fragment calls; the first thrown error aborts it. -/
def runFrags : List Frag → Selector → Option SelError × Selector
  | [], s => (none, s)
  | f :: fs, s =>
    match applyFrag f s with
    | (none, s2) => runFrags fs s2
    | (some e, s2) => (some e, s2)

/-- A selector state with every presence flag set and nonempty text,
used to exercise every error branch at once. -/
def fullSelector : Selector :=
  ⟨"x", true, true, true, true, true, true⟩

/-- Helper: the two module-level error values are distinct. -/
theorem quantityError_ne_orderError :
    Selector.quantityError ≠ Selector.orderError := by
  decide

/-!
## Claims
-/

/-- Claim C1, counterexample: appending an earlier-kind fragment after a
later-kind one does not always fail — class after pseudo-element
succeeds (yielding the text "::first-line.c"), and id after attribute
succeeds (yielding the text "[href]#main"). -/
theorem c1_counterexample :
    (cssSelectorBuilder.«class» "c"
        (cssSelectorBuilder.pseudoElement "first-line" Selector.empty).snd).fst = none
    ∧ (cssSelectorBuilder.«class» "c"
        (cssSelectorBuilder.pseudoElement "first-line" Selector.empty).snd).snd.stringify
        = "::first-line.c"
    ∧ (cssSelectorBuilder.id "main"
        (cssSelectorBuilder.attr "href" Selector.empty).snd).fst = none
    ∧ (cssSelectorBuilder.id "main"
        (cssSelectorBuilder.attr "href" Selector.empty).snd).snd.stringify
        = "[href]#main" := by
  decide

/-- Claim C1 as amended: only the pairwise checks present in the code
reject an earlier-kind fragment after a later-kind one — element fails
once any fragment has been appended (text nonempty), id fails after a
class or pseudo-element fragment, class fails after an attribute
fragment, attr fails after a pseudo-class fragment, pseudoClass fails
after a pseudo-element fragment, and pseudoElement fails after a class
fragment; the remaining earlier-after-later combinations are accepted. -/
theorem c1_pairwise_order_rejection (s : Selector) (v : String) :
    (s.selector ≠ "" → ((cssSelectorBuilder.element v s).fst).isSome = true)
    ∧ ((s.present.«class» = true ∨ s.present.pseudoElement = true) →
        ((cssSelectorBuilder.id v s).fst).isSome = true)
    ∧ (s.present.attr = true → ((cssSelectorBuilder.«class» v s).fst).isSome = true)
    ∧ (s.present.pseudoClass = true → ((cssSelectorBuilder.attr v s).fst).isSome = true)
    ∧ (s.present.pseudoElement = true →
        ((cssSelectorBuilder.pseudoClass v s).fst).isSome = true)
    ∧ (s.present.«class» = true →
        ((cssSelectorBuilder.pseudoElement v s).fst).isSome = true) := by
  obtain ⟨sel, e, i, c, a, pc, pe⟩ := s
  refine ⟨fun hsel => ?_, fun h => ?_, fun h => ?_, fun h => ?_, fun h => ?_, fun h => ?_⟩ <;>
    cases e <;> cases i <;> cases c <;> cases a <;> cases pc <;> cases pe <;>
      simp_all [cssSelectorBuilder.element, cssSelectorBuilder.id, cssSelectorBuilder.«class»,
        cssSelectorBuilder.attr, cssSelectorBuilder.pseudoClass,
        cssSelectorBuilder.pseudoElement, Selector.toStr]

/-- Claim C1 amended, witness: on the all-flags-set nonempty state every
one of the six rejections fires. -/
theorem c1_pairwise_order_rejection_witness :
    ((cssSelectorBuilder.element "z" fullSelector).fst).isSome = true
    ∧ ((cssSelectorBuilder.id "z" fullSelector).fst).isSome = true
    ∧ ((cssSelectorBuilder.«class» "z" fullSelector).fst).isSome = true
    ∧ ((cssSelectorBuilder.attr "z" fullSelector).fst).isSome = true
    ∧ ((cssSelectorBuilder.pseudoClass "z" fullSelector).fst).isSome = true
    ∧ ((cssSelectorBuilder.pseudoElement "z" fullSelector).fst).isSome = true := by
  have h := c1_pairwise_order_rejection fullSelector "z"
  exact ⟨h.1 (by decide), h.2.1 (Or.inl (by decide)), h.2.2.1 (by decide),
    h.2.2.2.1 (by decide), h.2.2.2.2.1 (by decide), h.2.2.2.2.2 (by decide)⟩

/-- Claim C2, counterexample: a combine result does support further
fragment-appending — invoking class on it succeeds and extends the
combined text. -/
theorem c2_counterexample :
    (cssSelectorBuilder.«class» "x"
        (cssSelectorBuilder.combine (cssSelectorBuilder.element "a" Selector.empty).snd "+"
          (cssSelectorBuilder.element "b" Selector.empty).snd)).fst = none
    ∧ (cssSelectorBuilder.«class» "x"
        (cssSelectorBuilder.combine (cssSelectorBuilder.element "a" Selector.empty).snd "+"
          (cssSelectorBuilder.element "b" Selector.empty).snd)).snd.stringify
        = "a + b.x" := by
  decide

/-- Claim C2 as amended: on a combine result only element fails (with
the order error, the combined text being nonempty); id, class, attr,
pseudoClass and pseudoElement all succeed on it, appending their
fragment, so the combined value is a further-extendable builder rather
than terminal. -/
theorem c2_combine_extendable (s1 : Selector) (c : String) (s2 : Selector) (v : String) :
    (cssSelectorBuilder.element v (cssSelectorBuilder.combine s1 c s2)).fst
      = some Selector.orderError
    ∧ (cssSelectorBuilder.id v (cssSelectorBuilder.combine s1 c s2)).fst = none
    ∧ (cssSelectorBuilder.«class» v (cssSelectorBuilder.combine s1 c s2)).fst = none
    ∧ (cssSelectorBuilder.attr v (cssSelectorBuilder.combine s1 c s2)).fst = none
    ∧ (cssSelectorBuilder.pseudoClass v (cssSelectorBuilder.combine s1 c s2)).fst = none
    ∧ (cssSelectorBuilder.pseudoElement v (cssSelectorBuilder.combine s1 c s2)).fst
      = none := by
  have hne : ¬(s1.selector ++ " " ++ c ++ " " ++ s2.selector = "") := by
    intro h
    have hlen := congrArg String.length h
    simp [String.length_append] at hlen
    exact absurd hlen.1.1.1.2 (by decide)
  refine ⟨?_, ?_, ?_, ?_, ?_, ?_⟩ <;>
    simp [cssSelectorBuilder.element, cssSelectorBuilder.id, cssSelectorBuilder.«class»,
      cssSelectorBuilder.attr, cssSelectorBuilder.pseudoClass,
      cssSelectorBuilder.pseudoElement, cssSelectorBuilder.combine, Selector.new,
      Present.empty, Selector.toStr, hne]

/-- Claim C5: combine renders as the left text, a space, the combinator
verbatim and unvalidated, a space, and the right text. -/
theorem c5_combine_stringify (s1 : Selector) (c : String) (s2 : Selector) :
    (cssSelectorBuilder.combine s1 c s2).stringify
      = s1.stringify ++ " " ++ c ++ " " ++ s2.stringify := rfl

/-- Claim C10: the Rectangle constructor exposes the given width and
height and an area accessor returning their product; in particular
Rectangle 10 20 has width 10, height 20 and area 200. -/
theorem c10_rectangle (w h : Int) :
    (Rectangle w h).width = w ∧ (Rectangle w h).height = h
    ∧ (Rectangle w h).getArea () = w * h
    ∧ (Rectangle 10 20).width = 10 ∧ (Rectangle 10 20).height = 20
    ∧ (Rectangle 10 20).getArea () = 200 := by
  exact ⟨rfl, rfl, rfl, rfl, rfl, by decide⟩

/-- Helper: the two module-level error values are distinct (reverse
orientation, for simp). -/
theorem orderError_ne_quantityError :
    Selector.orderError ≠ Selector.quantityError := by
  decide

/-- Claim C3: absent a duplicate-cardinality violation, each
fragment-appending operation raises the order error exactly when its
per-operation precondition is violated and succeeds otherwise: element
iff the text is nonempty, id iff a pseudo-element or class fragment was
appended, class iff an attribute fragment was appended, attr iff a
pseudo-class fragment was appended, pseudoClass iff a pseudo-element
fragment was appended, pseudoElement iff a class fragment was
appended. -/
theorem c3_order_preconditions (s : Selector) (v : String) :
    (s.present.element = false →
      (((cssSelectorBuilder.element v s).fst = some Selector.orderError) ↔ s.selector ≠ "")
      ∧ (((cssSelectorBuilder.element v s).fst = none) ↔ s.selector = ""))
    ∧ (s.present.id = false →
      (((cssSelectorBuilder.id v s).fst = some Selector.orderError) ↔
        (s.present.pseudoElement = true ∨ s.present.«class» = true))
      ∧ (((cssSelectorBuilder.id v s).fst = none) ↔
        (s.present.pseudoElement = false ∧ s.present.«class» = false)))
    ∧ ((((cssSelectorBuilder.«class» v s).fst = some Selector.orderError) ↔
        s.present.attr = true)
      ∧ (((cssSelectorBuilder.«class» v s).fst = none) ↔ s.present.attr = false))
    ∧ ((((cssSelectorBuilder.attr v s).fst = some Selector.orderError) ↔
        s.present.pseudoClass = true)
      ∧ (((cssSelectorBuilder.attr v s).fst = none) ↔ s.present.pseudoClass = false))
    ∧ ((((cssSelectorBuilder.pseudoClass v s).fst = some Selector.orderError) ↔
        s.present.pseudoElement = true)
      ∧ (((cssSelectorBuilder.pseudoClass v s).fst = none) ↔
        s.present.pseudoElement = false))
    ∧ (s.present.pseudoElement = false →
      (((cssSelectorBuilder.pseudoElement v s).fst = some Selector.orderError) ↔
        s.present.«class» = true)
      ∧ (((cssSelectorBuilder.pseudoElement v s).fst = none) ↔
        s.present.«class» = false)) := by
  obtain ⟨sel, e, i, c, a, pc, pe⟩ := s
  cases e <;> cases i <;> cases c <;> cases a <;> cases pc <;> cases pe <;>
    by_cases hsel : sel = "" <;>
      simp_all [cssSelectorBuilder.element, cssSelectorBuilder.id,
        cssSelectorBuilder.«class», cssSelectorBuilder.attr,
        cssSelectorBuilder.pseudoClass, cssSelectorBuilder.pseudoElement,
        Selector.toStr, quantityError_ne_orderError, orderError_ne_quantityError]

/-- Claim C3, witness: on the empty selector every duplicate-flag side
condition holds and all six operations succeed. -/
theorem c3_order_preconditions_witness :
    (cssSelectorBuilder.element "a" Selector.empty).fst = none
    ∧ (cssSelectorBuilder.id "i" Selector.empty).fst = none
    ∧ (cssSelectorBuilder.pseudoElement "p" Selector.empty).fst = none
    ∧ (cssSelectorBuilder.«class» "c" Selector.empty).fst = none := by
  refine ⟨((c3_order_preconditions Selector.empty "a").1 rfl).2.mpr rfl,
    ((c3_order_preconditions Selector.empty "i").2.1 rfl).2.mpr ⟨rfl, rfl⟩,
    ((c3_order_preconditions Selector.empty "p").2.2.2.2.2 rfl).2.mpr rfl,
    ((c3_order_preconditions Selector.empty "c").2.2.1).2.mpr rfl⟩

/-- Claim C4: after a successful element, id or pseudoElement call, a
second call of the same operation on the resulting builder raises the
quantity (duplicate-fragment) error, while class, attr and pseudoClass
never raise it on any state. -/
theorem c4_cardinality (s : Selector) (v w : String) :
    ((cssSelectorBuilder.element v s).fst = none →
      (cssSelectorBuilder.element w (cssSelectorBuilder.element v s).snd).fst
        = some Selector.quantityError)
    ∧ ((cssSelectorBuilder.id v s).fst = none →
      (cssSelectorBuilder.id w (cssSelectorBuilder.id v s).snd).fst
        = some Selector.quantityError)
    ∧ ((cssSelectorBuilder.pseudoElement v s).fst = none →
      (cssSelectorBuilder.pseudoElement w (cssSelectorBuilder.pseudoElement v s).snd).fst
        = some Selector.quantityError)
    ∧ (cssSelectorBuilder.«class» v s).fst ≠ some Selector.quantityError
    ∧ (cssSelectorBuilder.attr v s).fst ≠ some Selector.quantityError
    ∧ (cssSelectorBuilder.pseudoClass v s).fst ≠ some Selector.quantityError := by
  obtain ⟨sel, e, i, c, a, pc, pe⟩ := s
  cases e <;> cases i <;> cases c <;> cases a <;> cases pc <;> cases pe <;>
    by_cases hsel : sel = "" <;>
      simp_all [cssSelectorBuilder.element, cssSelectorBuilder.id,
        cssSelectorBuilder.«class», cssSelectorBuilder.attr,
        cssSelectorBuilder.pseudoClass, cssSelectorBuilder.pseudoElement,
        Selector.toStr, quantityError_ne_orderError, orderError_ne_quantityError]

/-- Claim C4, witness: each of the three cardinality-1 operations,
applied twice from the empty selector, raises the quantity error on the
second call. -/
theorem c4_cardinality_witness :
    (cssSelectorBuilder.element "b"
        (cssSelectorBuilder.element "a" Selector.empty).snd).fst
      = some Selector.quantityError
    ∧ (cssSelectorBuilder.id "b" (cssSelectorBuilder.id "a" Selector.empty).snd).fst
      = some Selector.quantityError
    ∧ (cssSelectorBuilder.pseudoElement "b"
        (cssSelectorBuilder.pseudoElement "a" Selector.empty).snd).fst
      = some Selector.quantityError := by
  have h := c4_cardinality Selector.empty "a" "b"
  exact ⟨h.1 (by decide), h.2.1 (by decide), h.2.2.1 (by decide)⟩

/-- Claim C6 fails on the code: the chain class then pseudoElement, a
valid ordering (element, id, classes, attributes, pseudo-classes,
pseudo-element, each optional), is rejected with the order error
instead of succeeding with the text ".c::f"; likewise the full
canonical chain stops at its pseudoElement call with the order error,
the first five appends having succeeded with text "p#i.c[a]:h". -/
theorem c6_valid_order_rejected :
    runFrags [Frag.cls "c", Frag.pseudoElt "f"] Selector.empty
      = (some Selector.orderError, ⟨".c", ⟨false, false, true, false, false, false⟩⟩)
    ∧ runFrags [Frag.element "p", Frag.id "i", Frag.cls "c", Frag.attr "a",
        Frag.pseudoCls "h", Frag.pseudoElt "f"] Selector.empty
      = (some Selector.orderError, ⟨"p#i.c[a]:h", ⟨true, true, true, true, true, false⟩⟩) := by
  decide

/-- Claim C7: every fragment-appending operation is atomic on error —
whenever it returns a thrown error, the selector text and all presence
flags are exactly the pre-call ones. -/
theorem c7_atomic_on_error (s : Selector) (v : String) :
    ((cssSelectorBuilder.element v s).fst.isSome = true →
      (cssSelectorBuilder.element v s).snd = s)
    ∧ ((cssSelectorBuilder.id v s).fst.isSome = true →
      (cssSelectorBuilder.id v s).snd = s)
    ∧ ((cssSelectorBuilder.«class» v s).fst.isSome = true →
      (cssSelectorBuilder.«class» v s).snd = s)
    ∧ ((cssSelectorBuilder.attr v s).fst.isSome = true →
      (cssSelectorBuilder.attr v s).snd = s)
    ∧ ((cssSelectorBuilder.pseudoClass v s).fst.isSome = true →
      (cssSelectorBuilder.pseudoClass v s).snd = s)
    ∧ ((cssSelectorBuilder.pseudoElement v s).fst.isSome = true →
      (cssSelectorBuilder.pseudoElement v s).snd = s) := by
  obtain ⟨sel, e, i, c, a, pc, pe⟩ := s
  cases e <;> cases i <;> cases c <;> cases a <;> cases pc <;> cases pe <;>
    by_cases hsel : sel = "" <;>
      simp_all [cssSelectorBuilder.element, cssSelectorBuilder.id,
        cssSelectorBuilder.«class», cssSelectorBuilder.attr,
        cssSelectorBuilder.pseudoClass, cssSelectorBuilder.pseudoElement,
        Selector.toStr]

/-- Claim C7, witness: on the all-flags-set state every operation
errors and leaves the state untouched. -/
theorem c7_atomic_on_error_witness :
    (cssSelectorBuilder.element "z" fullSelector).snd = fullSelector
    ∧ (cssSelectorBuilder.id "z" fullSelector).snd = fullSelector
    ∧ (cssSelectorBuilder.«class» "z" fullSelector).snd = fullSelector
    ∧ (cssSelectorBuilder.attr "z" fullSelector).snd = fullSelector
    ∧ (cssSelectorBuilder.pseudoClass "z" fullSelector).snd = fullSelector
    ∧ (cssSelectorBuilder.pseudoElement "z" fullSelector).snd = fullSelector := by
  have h := c7_atomic_on_error fullSelector "z"
  exact ⟨h.1 (by decide), h.2.1 (by decide), h.2.2.1 (by decide),
    h.2.2.2.1 (by decide), h.2.2.2.2.1 (by decide), h.2.2.2.2.2 (by decide)⟩

/-- Claim C8: every failure reports one of the two module-level error
values — duplicate failures from element, id and pseudoElement all
report the single shared quantity value, the order failures all report
the single shared order value, and the two values are distinct. -/
theorem c8_shared_fault_values (s : Selector) (v : String) :
    ((cssSelectorBuilder.element v s).fst = none
      ∨ (cssSelectorBuilder.element v s).fst = some Selector.quantityError
      ∨ (cssSelectorBuilder.element v s).fst = some Selector.orderError)
    ∧ ((cssSelectorBuilder.id v s).fst = none
      ∨ (cssSelectorBuilder.id v s).fst = some Selector.quantityError
      ∨ (cssSelectorBuilder.id v s).fst = some Selector.orderError)
    ∧ ((cssSelectorBuilder.«class» v s).fst = none
      ∨ (cssSelectorBuilder.«class» v s).fst = some Selector.orderError)
    ∧ ((cssSelectorBuilder.attr v s).fst = none
      ∨ (cssSelectorBuilder.attr v s).fst = some Selector.orderError)
    ∧ ((cssSelectorBuilder.pseudoClass v s).fst = none
      ∨ (cssSelectorBuilder.pseudoClass v s).fst = some Selector.orderError)
    ∧ ((cssSelectorBuilder.pseudoElement v s).fst = none
      ∨ (cssSelectorBuilder.pseudoElement v s).fst = some Selector.quantityError
      ∨ (cssSelectorBuilder.pseudoElement v s).fst = some Selector.orderError)
    ∧ (s.present.element = true →
      (cssSelectorBuilder.element v s).fst = some Selector.quantityError)
    ∧ (s.present.id = true →
      (cssSelectorBuilder.id v s).fst = some Selector.quantityError)
    ∧ (s.present.pseudoElement = true →
      (cssSelectorBuilder.pseudoElement v s).fst = some Selector.quantityError)
    ∧ Selector.quantityError ≠ Selector.orderError := by
  obtain ⟨sel, e, i, c, a, pc, pe⟩ := s
  cases e <;> cases i <;> cases c <;> cases a <;> cases pc <;> cases pe <;>
    by_cases hsel : sel = "" <;>
      simp_all [cssSelectorBuilder.element, cssSelectorBuilder.id,
        cssSelectorBuilder.«class», cssSelectorBuilder.attr,
        cssSelectorBuilder.pseudoClass, cssSelectorBuilder.pseudoElement,
        Selector.toStr, quantityError_ne_orderError, orderError_ne_quantityError]

/-- Claim C8, witness: on the all-flags-set state the three
cardinality-1 operations report exactly the shared quantity value. -/
theorem c8_shared_fault_values_witness :
    (cssSelectorBuilder.element "z" fullSelector).fst = some Selector.quantityError
    ∧ (cssSelectorBuilder.id "z" fullSelector).fst = some Selector.quantityError
    ∧ (cssSelectorBuilder.pseudoElement "z" fullSelector).fst
        = some Selector.quantityError
    ∧ Selector.quantityError ≠ Selector.orderError := by
  have h := c8_shared_fault_values fullSelector "z"
  exact ⟨h.2.2.2.2.2.2.1 (by decide), h.2.2.2.2.2.2.2.1 (by decide),
    h.2.2.2.2.2.2.2.2.1 (by decide), h.2.2.2.2.2.2.2.2.2⟩

/-- Claim C9: when the own data fields of a value survive the textual
encoding, fromJSON of getJSON of the value yields a result with exactly
those own fields, and every behavior method defined on the supplied
shape produces on it the same output as on a value natively constructed
with that shape and those fields. -/
theorem c9_round_trip (shape : Shape) (v : Obj)
    (h : jsonParse (getJSON v) = some v.fields) :
    (fromJSON shape (getJSON v)).map Obj.fields = some v.fields
    ∧ ∀ m, (fromJSON shape (getJSON v)).map (fun r => callMethod r m)
        = some (callMethod (Obj.mk v.fields shape) m) := by
  constructor
  · simp [fromJSON, h]
  · intro m
    simp [fromJSON, h]

/-- Example prototype for the round-trip witness: one behavior method
computing twice the "radius" own field. -/
def diameterShape : Shape :=
  ⟨[("getDiameter", fun fs =>
      match fs.lookup "radius" with
      | some (.jnum n) => .jnum (2 * n)
      | _ => .jnum 0)]⟩

/-- Example value for the round-trip witness. -/
def circleObj : Obj :=
  ⟨[("radius", .jnum 10)], diameterShape⟩

/-- Claim C9, witness: the round trip at a concrete circle-like value
whose single field survives the encoding. -/
theorem c9_round_trip_witness :
    (fromJSON diameterShape (getJSON circleObj)).map Obj.fields = some circleObj.fields
    ∧ (fromJSON diameterShape (getJSON circleObj)).map
        (fun r => callMethod r "getDiameter")
      = some (callMethod (Obj.mk circleObj.fields diameterShape) "getDiameter") := by
  have h := c9_round_trip diameterShape circleObj (by decide)
  exact ⟨h.1, h.2 "getDiameter"⟩
